import Mathlib

/-!
Shallow embedding of `app.py`, the single source file of the
`deployment-ai-mental-health-coach` repository: a Flask server with routes
`GET /`, `GET /health`, `POST /chat`, `POST /upload-audio`,
`GET /audios/<filename>`, three lazily initialized external-service client
handles (orchestrator, speech-to-text, text-to-speech), and three wrapper
functions around the external calls.

JSON values and the relevant fragment of Python runtime semantics
(truthiness, `len`, subscripting, `dict.get`, the `in` operator) are
modelled explicitly, since the endpoint's control flow depends on them.
External services are modelled as functions supplied in an environment;
each wrapper also reports the list of external calls it performed, so that
call ordering and "no external service was contacted" are provable facts.
-/

namespace AppPy

/-- JSON values (also used for the Python values the handler manipulates:
the request body, history items, orchestrator results). -/
inductive Json where
  | jnull : Json
  | jbool : Bool → Json
  | jnum : Int → Json
  | jstr : String → Json
  | jarr : List Json → Json
  | jobj : List (String × Json) → Json

namespace Json

/-- Python type name of a value, used in error messages. -/
def typeName : Json → String
  | .jnull => "NoneType"
  | .jbool _ => "bool"
  | .jnum _ => "int"
  | .jstr _ => "str"
  | .jarr _ => "list"
  | .jobj _ => "dict"

/-- Python truthiness: `None`, `False`, `0`, `""`, `[]`, `{}` are falsy. -/
def truthy : Json → Bool
  | .jnull => false
  | .jbool b => b
  | .jnum n => n != 0
  | .jstr s => s != ""
  | .jarr xs => !xs.isEmpty
  | .jobj kvs => !kvs.isEmpty

/-- Python `v == s` for a string literal `s`: true exactly when `v` is
that string (the values here are JSON, with no overloaded equality). -/
def eqStr (v : Json) (s : String) : Bool :=
  match v with
  | .jstr t => t == s
  | _ => false

/-- Python `isinstance(v, str)`. -/
def isStr : Json → Bool
  | .jstr _ => true
  | _ => false

/-- The underlying string of a string value (only read where `isStr` has
been checked). -/
def strVal : Json → String
  | .jstr s => s
  | _ => ""

end Json

/-- Python exceptions that can arise in the modelled code. `str(e)` is the
carried message. `serviceError` stands for any exception raised inside an
external client call. -/
inductive Exn where
  | runtimeError : String → Exn
  | fileNotFoundError : String → Exn
  | valueError : String → Exn
  | typeError : String → Exn
  | keyError : String → Exn
  | attributeError : String → Exn
  | serviceError : String → Exn
  deriving DecidableEq

/-- Python `str(e)` for the exceptions above (the message they carry). -/
def Exn.message : Exn → String
  | .runtimeError m => m
  | .fileNotFoundError m => m
  | .valueError m => m
  | .typeError m => m
  | .keyError m => m
  | .attributeError m => m
  | .serviceError m => m

/-- Python `len(x)`: defined on strings, lists and dicts, a `TypeError`
otherwise. -/
def pyLen : Json → Except Exn Nat
  | .jstr s => .ok s.length
  | .jarr xs => .ok xs.length
  | .jobj kvs => .ok kvs.length
  | v => .error (.typeError ("object of type '" ++ v.typeName ++ "' has no len()"))

/-- Association-list lookup used for dict keys (first binding wins, as in
the JSON objects a request carries). -/
def lookupKey (kvs : List (String × Json)) (k : String) : Option Json :=
  match kvs with
  | [] => none
  | (k₀, v₀) :: rest => if k₀ = k then some v₀ else lookupKey rest k

/-- Python `d.get(k, default)`: only dicts have a `.get` attribute; on
other values it raises `AttributeError`. -/
def dictGet (v : Json) (k : String) (dflt : Json) : Except Exn Json :=
  match v with
  | .jobj kvs =>
    match lookupKey kvs k with
    | some x => .ok x
    | none => .ok dflt
  | _ => .error (.attributeError ("'" ++ v.typeName ++ "' object has no attribute 'get'"))

/-- Python subscripting `v[k]` with a string key: a dict lookup (missing
key raises `KeyError`), a `TypeError` on every other type. -/
def getItem (v : Json) (k : String) : Except Exn Json :=
  match v with
  | .jobj kvs =>
    match lookupKey kvs k with
    | some x => .ok x
    | none => .error (.keyError ("'" ++ k ++ "'"))
  | .jarr _ => .error (.typeError "list indices must be integers or slices, not str")
  | .jstr _ => .error (.typeError "string indices must be integers")
  | _ => .error (.typeError ("'" ++ v.typeName ++ "' object is not subscriptable"))

/-- Whether `needle` occurs as a substring of `hay` (Python `in` on `str`). -/
def strContains (hay needle : String) : Bool :=
  (hay.splitOn needle).length > 1

/-- Python `not s.strip()`: the stripped string is empty exactly when
every character of `s` is whitespace. -/
def stripEmpty (s : String) : Bool :=
  s.data.all Char.isWhitespace

/-- `s[n:]` on the characters of `s` (used for route-path suffixes). -/
def strDrop (s : String) (n : Nat) : String :=
  ⟨s.data.drop n⟩

/-- Python `s.startswith(pre)`. -/
def strStartsWith (s pre : String) : Bool :=
  s.data.take pre.data.length == pre.data

/-- Python `k in v` for a string `k`: key membership on dicts, element
membership on lists, substring on strings, `TypeError` otherwise. -/
def pyContains (v : Json) (k : String) : Except Exn Bool :=
  match v with
  | .jobj kvs => .ok ((lookupKey kvs k).isSome)
  | .jarr xs => .ok (xs.any (fun x => x.eqStr k))
  | .jstr s => .ok (strContains s k)
  | _ => .error (.typeError ("argument of type " ++ v.typeName ++ " is not iterable"))

/-- `os.path.join` for the relative POSIX paths used in `app.py`. -/
def pathJoin (folder filename : String) : String :=
  folder ++ "/" ++ filename

/-- One external-service call performed by the server, with its argument:
the speech-to-text transcription, the orchestrator call (carrying the
conversation it was given), or the text-to-speech synthesis. -/
inductive Event where
  | sttCall : String → Event
  | orchCall : List Json → Event
  | ttsCall : Json → Event

/-- The process-wide state of `app.py`: the three client handles set by
`initialize_clients` (`none` models a handle set to Python `None` after a
failed initialization), each successful handle being the behaviour of the
corresponding external service, plus the filesystem visible to
`os.path.isfile` / `send_from_directory`. -/
structure Env where
  /-- `orch.start_session`: conversation list in, result value out (or an
  exception raised inside the external call). -/
  orch : Option (List Json → Except Exn Json)
  /-- `sst_client.transcribe`: audio path in, transcribed text out. -/
  sst : Option (String → Except Exn String)
  /-- `murf_client.generate_speech` applied to its `text` argument (all
  other arguments at the call site are constants): response value out. -/
  murf : Option (Json → Except Exn Json)
  /-- Which relative paths name existing files on the server's disk. -/
  fileExists : String → Bool

/-- Modelled from the spec: `MurfTTSClient.save_audio` lives in
`backend/text_to_speech`, which is not part of this repository's source
tree; the spec describes it only as saving the generated audio on local
disk. It is modelled as writing the decoded audio under the folder and
filename its caller passes and returning that path, as its argument names
direct. -/
def save_audio (folder filename : String) : String :=
  pathJoin folder filename

/-- `generate_ai_response(message)`: checks the orchestrator handle, wraps
the message in a list if it is a string, calls `orch.start_session`,
validates the result and extracts `result['solution']`. Returns the value
or the exception raised, paired with the external calls performed. -/
def generate_ai_response (env : Env) (message : Json) : Except Exn Json × List Event :=
  match env.orch with
  | none =>
    (.error (.runtimeError "Orchestrator not initialized. Check backend configuration."), [])
  | some startSession =>
    match message with
    | .jstr s => generate_ai_response.afterCall [Json.jstr s] (startSession [Json.jstr s])
    | .jarr xs => generate_ai_response.afterCall xs (startSession xs)
    | _ => (.error (.valueError "generate_ai_response: message must be str or list[str]"), [])
where
  /-- `if not result or 'solution' not in result: raise RuntimeError(...)`,
  then `return result['solution']`; a raised exception propagates (the
  `except` clause logs and re-raises). -/
  afterCall (conv : List Json) (call : Except Exn Json) : Except Exn Json × List Event :=
    match call with
    | .error e => (.error e, [.orchCall conv])
    | .ok result =>
      if !result.truthy then
        (.error (.runtimeError "Invalid response from Orchestrator"), [.orchCall conv])
      else
        match pyContains result "solution" with
        | .error e => (.error e, [.orchCall conv])
        | .ok b =>
          if !b then
            (.error (.runtimeError "Invalid response from Orchestrator"), [.orchCall conv])
          else
            (getItem result "solution", [.orchCall conv])

/-- `transcribe_audio(filepath)`: checks the speech-to-text handle, then
that the file exists (`FileNotFoundError` otherwise), then calls
`sst_client.transcribe`. -/
def transcribe_audio (env : Env) (filepath : String) : Except Exn String × List Event :=
  match env.sst with
  | none =>
    (.error (.runtimeError "SpeechToText client not initialized. Check backend configuration."), [])
  | some transcribe =>
    if !env.fileExists filepath then
      (.error (.fileNotFoundError ("Audio file not found: " ++ filepath)), [])
    else
      match transcribe filepath with
      | .ok t => (.ok t, [.sttCall filepath])
      | .error e => (.error e, [.sttCall filepath])

/-- `generate_audio_response(ai_message)`: checks the text-to-speech
handle, calls `murf_client.generate_speech`, and on
`resp["success"] and resp.get("encoded_audio")` saves the audio as
`audios/ai_response.mp3`; otherwise raises. -/
def generate_audio_response (env : Env) (ai_message : Json) : Except Exn String × List Event :=
  match env.murf with
  | none =>
    (.error (.runtimeError "MurfTTSClient not initialized. Check backend configuration."), [])
  | some generateSpeech =>
    match generateSpeech ai_message with
    | .error e => (.error e, [.ttsCall ai_message])
    | .ok resp =>
      match getItem resp "success" with
      | .error e => (.error e, [.ttsCall ai_message])
      | .ok success =>
        if !success.truthy then
          (.error (.runtimeError "Speech generation failed or no audio returned."), [.ttsCall ai_message])
        else
          match dictGet resp "encoded_audio" Json.jnull with
          | .error e => (.error e, [.ttsCall ai_message])
          | .ok enc =>
            if !enc.truthy then
              (.error (.runtimeError "Speech generation failed or no audio returned."), [.ttsCall ai_message])
            else
              (.ok (save_audio "audios" "ai_response.mp3"), [.ttsCall ai_message])

/-- An HTTP response body: either JSON (`jsonify`) or the contents of a
file on disk (`send_from_directory dir file`). -/
inductive HttpBody where
  | jsonBody : Json → HttpBody
  | fileBody : String → String → HttpBody

/-- An HTTP response: status code and body. -/
structure Response where
  status : Nat
  body : HttpBody

/-- `jsonify({"error": msg}), code` -/
def errorResponse (code : Nat) (msg : String) : Response :=
  ⟨code, .jsonBody (.jobj [("error", .jstr msg)])⟩

/-- `[item['content'] for item in messages_history]`: the first item
without a `'content'` key raises. -/
def contentsOf : List Json → Except Exn (List Json)
  | [] => .ok []
  | item :: rest =>
    match getItem item "content" with
    | .error e => .error e
    | .ok c =>
      match contentsOf rest with
      | .error e => .error e
      | .ok cs => .ok (c :: cs)

/-- Python iteration `for item in v`: a list yields its elements, a string
its characters, a dict its keys; other values raise `TypeError`. -/
def pyIter : Json → Except Exn (List Json)
  | .jarr xs => .ok xs
  | .jstr s => .ok (s.data.map (fun c => .jstr (String.singleton c)))
  | .jobj kvs => .ok (kvs.map (fun kv => .jstr kv.1))
  | v => .error (.typeError (v.typeName ++ " object is not iterable"))

/-- The conversation built from the `messages` value:
`[item['content'] for item in messages_history]`. -/
def conversationOf (messages_history : Json) : Except Exn (List Json) :=
  match pyIter messages_history with
  | .error e => .error e
  | .ok items => contentsOf items

/-- The fallback body the `dtype == "message"` branch returns when AI
response generation fails (HTTP 200, not an error response). -/
def fallbackResponse : Response :=
  ⟨200, .jsonBody (.jobj
    [("content", .jstr "I'm having trouble connecting right now. Let's try again in a moment."),
     ("type", .jstr "message")])⟩

/-- The second stage of the audio pipeline, the try block at lines
165-177: build the conversation (history contents plus the transcribed
text appended) and call the orchestrator. An exception from either step is
caught by the same `except` clause. -/
def audioStage2 (env : Env) (messages_history : Json) (transcribed_text : String) :
    Except Exn Json × List Event :=
  match conversationOf messages_history with
  | .error e => (.error e, [])
  | .ok conv => generate_ai_response env (.jarr (conv ++ [Json.jstr transcribed_text]))

/-- Lines 152-194 of `app.py`: the `dtype == "audio"` branch. Transcribe;
on `FileNotFoundError` answer 400, on any other exception 500. Then build
the conversation and call the orchestrator; on exception answer 500. Then
synthesize speech; on exception answer 500. On success answer 200 with the
full payload. -/
def audioBranch (env : Env) (user_message : String) (messages_history : Json) :
    Response × List Event :=
  match transcribe_audio env user_message with
  | (.error (.fileNotFoundError m), ev₁) => (errorResponse 400 m, ev₁)
  | (.error e, ev₁) => (errorResponse 500 ("Audio transcription failed: " ++ e.message), ev₁)
  | (.ok transcribed_text, ev₁) =>
    match audioStage2 env messages_history transcribed_text with
    | (.error e, ev₂) =>
      (errorResponse 500 ("AI response generation failed: " ++ e.message), ev₁ ++ ev₂)
    | (.ok ai_response, ev₂) =>
      match generate_audio_response env ai_response with
      | (.error e, ev₃) =>
        (errorResponse 500 ("Audio generation failed: " ++ e.message), ev₁ ++ ev₂ ++ ev₃)
      | (.ok audio_filepath, ev₃) =>
        (⟨200, .jsonBody (.jobj
          [("content", ai_response),
           ("audio_filepath", .jstr audio_filepath),
           ("transcribed_text", .jstr transcribed_text),
           ("type", .jstr "audio")])⟩, ev₁ ++ ev₂ ++ ev₃)

/-- The body of the try block at lines 198-212: build the conversation
from the history contents only (the validated `user_message` is not used)
and call the orchestrator. -/
def messageStage (env : Env) (messages_history : Json) : Except Exn Json × List Event :=
  match conversationOf messages_history with
  | .error e => (.error e, [])
  | .ok conv => generate_ai_response env (.jarr conv)

/-- Lines 196-220 of `app.py`: the `dtype == "message"` branch. Any
exception in the try block is answered with the HTTP 200 fallback body. -/
def messageBranch (env : Env) (messages_history : Json) : Response × List Event :=
  match messageStage env messages_history with
  | (.error _, ev) => (fallbackResponse, ev)
  | (.ok ai_response, ev) =>
    (⟨200, .jsonBody (.jobj [("content", ai_response), ("type", .jstr "message")])⟩, ev)

/-- The outer `except Exception` of the chat endpoint:
`jsonify({"error": "Server error: " + str(e)}), 500`. -/
def serverError (e : Exn) : Response :=
  errorResponse 500 ("Server error: " ++ e.message)

/-- `POST /chat` (lines 126-225 of `app.py`). The argument is
`request.json` (`none` when the request carries no JSON body). Validation:
falsy body, then field extraction via `.get` (an `AttributeError` on a
non-dict body reaches the outer handler), the logging line evaluating
`len(messages_history)` (a `TypeError` on a non-sized value reaches the
outer handler), the `dtype` check, the `user_message` check, then dispatch
to the audio or message branch. -/
def chat_endpoint (env : Env) (reqJson : Option Json) : Response × List Event :=
  match reqJson with
  | none => (errorResponse 400 "Missing JSON body", [])
  | some data =>
    if !data.truthy then (errorResponse 400 "Missing JSON body", [])
    else
      match dictGet data "user_message" Json.jnull with
      | .error e => (serverError e, [])
      | .ok user_message =>
        match dictGet data "dtype" Json.jnull with
        | .error e => (serverError e, [])
        | .ok dtype =>
          match dictGet data "messages" (Json.jarr []) with
          | .error e => (serverError e, [])
          | .ok messages_history =>
            match pyLen messages_history with
            | .error e => (serverError e, [])
            | .ok _ =>
              if !(dtype.eqStr "audio" || dtype.eqStr "message") then
                (errorResponse 400 "Invalid dtype, must be 'audio' or 'message'", [])
              else if !user_message.truthy || !user_message.isStr
                  || stripEmpty user_message.strVal then
                (errorResponse 400 "Missing or empty user_message", [])
              else if dtype.eqStr "audio" then
                audioBranch env user_message.strVal messages_history
              else
                -- here `dtype == "message"` holds, by the check above
                messageBranch env messages_history

/-- `GET /` (lines 110-112): serve `index.html` from the root directory. -/
def index : Response :=
  ⟨200, .fileBody "." "index.html"⟩

/-- `GET /health` (lines 114-124). -/
def health (env : Env) : Response :=
  ⟨200, .jsonBody (.jobj
    [("status", .jstr "healthy"),
     ("timestamp", .jstr "2025-09-20 09:53:16"),
     ("services", .jobj
       [("orchestrator", .jstr (if env.orch.isSome then "available" else "unavailable")),
        ("speech_to_text", .jstr (if env.sst.isSome then "available" else "unavailable")),
        ("text_to_speech", .jstr (if env.murf.isSome then "available" else "unavailable"))])])⟩

/-- The 404 handler (lines 243-246): for any 404 it sends back the main
app page, `send_from_directory('.', 'index.html')`, a fresh HTTP 200 file
response rather than a JSON error. -/
def not_found : Response :=
  ⟨200, .fileBody "." "index.html"⟩

/-- `GET /audios/<filename>` (lines 239-241): serve the file from the
`audios` folder; a missing file raises `NotFound`, which the 404 handler
answers. -/
def serve_audio (env : Env) (filename : String) : Response :=
  if env.fileExists (pathJoin "audios" filename) then ⟨200, .fileBody "audios" filename⟩
  else not_found

/-- `POST /upload-audio` (lines 227-237). The argument is the uploaded
file's bytes when the form field `audio` is present. Returns the response
and, when a save happened, the path written together with the bytes. -/
def upload_audio (audioFile : Option String) : Response × Option (String × String) :=
  match audioFile with
  | none => (errorResponse 400 "No audio file provided", none)
  | some contents =>
    let save_path := pathJoin "audios" "user_audio.mp3"
    (⟨200, .jsonBody (.jobj [("audio_filepath", .jstr save_path)])⟩, some (save_path, contents))

/-- Whether a path matches the `/audios/<filename>` rule (the default
converter matches one nonempty slash-free segment). -/
def isAudiosPath (p : String) : Bool :=
  strStartsWith p "/audios/" && !(p.data.drop 8).isEmpty && !(p.data.drop 8).contains '/'

/-- Routing of a GET request by path: the fixed routes, then Flask's
static route (`static_folder='.'`, `static_url_path=''`) serving an
existing file from the root directory, and otherwise the 404 handler. -/
def dispatch_get (env : Env) (p : String) : Response :=
  if p == "/" then index
  else if p == "/health" then health env
  else if isAudiosPath p then serve_audio env (strDrop p 8)
  else if env.fileExists (strDrop p 1) then ⟨200, .fileBody "." (strDrop p 1)⟩
  else not_found

/-! ### Statement-level helpers -/

/-- Kind of an external call: speech-to-text. -/
def Event.isStt : Event → Bool
  | .sttCall _ => true
  | _ => false

/-- Kind of an external call: the orchestrator. -/
def Event.isOrch : Event → Bool
  | .orchCall _ => true
  | _ => false

/-- Kind of an external call: text-to-speech. -/
def Event.isTts : Event → Bool
  | .ttsCall _ => true
  | _ => false

/-- Whether a response body is a JSON error object `{"error": ...}`. -/
def isJsonError : HttpBody → Bool
  | .jsonBody (.jobj [("error", .jstr _)]) => true
  | _ => false

/-- Key lookup on a JSON object value. -/
def jlookup : Json → String → Option Json
  | .jobj kvs, k => lookupKey kvs k
  | _, _ => none

/-- A top-level field of a JSON response body. -/
def respField (r : Response) (k : String) : Option Json :=
  match r.body with
  | .jsonBody j => jlookup j k
  | _ => none

/-- A field of the `services` object of a JSON response body. -/
def respServiceField (r : Response) (k : String) : Option Json :=
  match respField r "services" with
  | some sv => jlookup sv k
  | none => none

/-- A `POST /chat` JSON body with the three fields the endpoint reads. -/
def mkChatReq (dtype user_message : String) (hist : List Json) : Json :=
  .jobj [("user_message", .jstr user_message), ("dtype", .jstr dtype),
         ("messages", .jarr hist)]

/-- The chat endpoint on a well-formed audio request. -/
def chatAudio (env : Env) (s : String) (hist : List Json) : Response × List Event :=
  chat_endpoint env (some (mkChatReq "audio" s hist))

/-- The chat endpoint on a well-formed text-message request. -/
def chatMessage (env : Env) (s : String) (hist : List Json) : Response × List Event :=
  chat_endpoint env (some (mkChatReq "message" s hist))

/-! ### Concrete environments for witnesses and counterexamples -/

/-- All three clients failed to initialize (every handle is `None`), and
no file exists. -/
def envNone : Env := ⟨none, none, none, fun _ => false⟩

/-- An orchestrator whose external call always raises. -/
def orchFail : List Json → Except Exn Json :=
  fun _ => .error (.serviceError "orchestrator connection failed")

/-- Only the orchestrator handle is initialized, and its call raises. -/
def envOrchFail : Env := ⟨some orchFail, none, none, fun _ => false⟩

/-- A text-to-speech client whose external call always succeeds. -/
def murfOk : Json → Except Exn Json :=
  fun _ => .ok (.jobj [("success", .jbool true), ("encoded_audio", .jstr "UklGRg==")])

/-- Only the text-to-speech handle is initialized, successfully. -/
def envMurfOk : Env := ⟨none, none, some murfOk, fun _ => false⟩

/-- A speech-to-text client whose external call always raises; every file
exists, so transcription reaches the external call. -/
def envSttFail : Env :=
  ⟨none, some (fun _ => .error (.serviceError "transcription service down")), none, fun _ => true⟩

/-- An orchestrator whose external call succeeds with a solution. -/
def orchOk : List Json → Except Exn Json :=
  fun _ => .ok (.jobj [("solution", .jstr "a helpful reply")])

/-- Orchestrator and speech-to-text initialized and succeeding,
text-to-speech uninitialized; every file exists. -/
def envOrchSttOk : Env :=
  ⟨some orchOk, some (fun _ => .ok "transcribed words"), none, fun _ => true⟩

/-- A one-item message history whose item has a `content` field. -/
def histOne : List Json := [.jobj [("content", .jstr "earlier turn")]]

end AppPy

namespace AppPy

/-! ### Helper lemmas -/

/-- A string none of whose characters are all whitespace is nonempty. -/
theorem ne_empty_of_not_stripEmpty (s : String) (hs : stripEmpty s = false) :
    (s != "") = true := by
  rcases eq_or_ne s "" with h | h
  · subst h; exact absurd hs (by decide)
  · exact bne_iff_ne.mpr h

/-- On a well-formed audio request, validation passes and the endpoint
runs the audio branch. -/
theorem chat_audio_eq (env : Env) (s : String) (hist : List Json)
    (hs : stripEmpty s = false) :
    chatAudio env s hist = audioBranch env s (.jarr hist) := by
  have hne := ne_empty_of_not_stripEmpty s hs
  simp [chatAudio, chat_endpoint, mkChatReq, dictGet, lookupKey, Json.truthy,
        Json.eqStr, Json.isStr, Json.strVal, pyLen, hne, hs]

/-- On a well-formed text-message request, validation passes and the
endpoint runs the message branch. -/
theorem chat_message_eq (env : Env) (s : String) (hist : List Json)
    (hs : stripEmpty s = false) :
    chatMessage env s hist = messageBranch env (.jarr hist) := by
  have hne := ne_empty_of_not_stripEmpty s hs
  simp [chatMessage, chat_endpoint, mkChatReq, dictGet, lookupKey, Json.truthy,
        Json.eqStr, Json.isStr, Json.strVal, pyLen, hne, hs]

end AppPy

namespace AppPy

/-- The result-validation step of `generate_ai_response` reports exactly
the one orchestrator call that was just made. -/
theorem afterCall_trace (conv : List Json) (call : Except Exn Json) :
    (generate_ai_response.afterCall conv call).2 = [.orchCall conv] := by
  unfold generate_ai_response.afterCall
  split
  · rfl
  · split
    · rfl
    · split
      · rfl
      · split <;> rfl

/-- The transcription wrapper performs speech-to-text calls only. -/
theorem transcribe_events (env : Env) (s : String) :
    ((transcribe_audio env s).2).all Event.isStt = true := by
  unfold transcribe_audio
  split
  · rfl
  · split
    · rfl
    · split <;> rfl

/-- The AI-response wrapper performs orchestrator calls only. -/
theorem genai_events (env : Env) (m : Json) :
    ((generate_ai_response env m).2).all Event.isOrch = true := by
  unfold generate_ai_response
  split
  · rfl
  · split
    · rw [afterCall_trace]; rfl
    · rw [afterCall_trace]; rfl
    · rfl

/-- The second audio stage performs orchestrator calls only. -/
theorem audioStage2_events (env : Env) (mh : Json) (t : String) :
    ((audioStage2 env mh t).2).all Event.isOrch = true := by
  unfold audioStage2
  split
  · rfl
  · exact genai_events env _

/-- The message stage performs orchestrator calls only. -/
theorem messageStage_events (env : Env) (mh : Json) :
    ((messageStage env mh).2).all Event.isOrch = true := by
  unfold messageStage
  split
  · rfl
  · exact genai_events env _

/-- The speech-synthesis wrapper performs text-to-speech calls only. -/
theorem genaudio_events (env : Env) (m : Json) :
    ((generate_audio_response env m).2).all Event.isTts = true := by
  unfold generate_audio_response
  split
  · rfl
  · split
    · rfl
    · split
      · rfl
      · split
        · rfl
        · split
          · rfl
          · split <;> rfl

/-- When the orchestrator handle is set, the AI-response wrapper on a list
message performs exactly one orchestrator call, carrying that list. -/
theorem genai_trace (env : Env) (f : List Json → Except Exn Json)
    (ho : env.orch = some f) (conv : List Json) :
    (generate_ai_response env (.jarr conv)).2 = [.orchCall conv] := by
  unfold generate_ai_response
  rw [ho]
  exact afterCall_trace conv (f conv)

end AppPy

namespace AppPy

/-! ### Claim C2 -/

/-- C2 counterexample: two distinct synthesized responses ("Hello" and
"Goodbye", under a text-to-speech client that succeeds on both) are saved
under the same filename `audios/ai_response.mp3`, refuting the claim that
any two distinct synthesized responses get distinct filenames built from a
random identifier. -/
theorem audio_response_fixed_filename_cex :
    (generate_audio_response envMurfOk (.jstr "Hello")).1 = .ok "audios/ai_response.mp3" ∧
    (generate_audio_response envMurfOk (.jstr "Goodbye")).1 = .ok "audios/ai_response.mp3" ∧
    ("Hello" : String) ≠ "Goodbye" :=
  ⟨rfl, rfl, by decide⟩

/-- C2 (amended): every successful call to `generate_audio_response` saves
the synthesized reply under the one fixed path `audios/ai_response.mp3`
(the constant folder and filename passed to `save_audio`); distinct
responses share that filename rather than getting unique ones. -/
theorem audio_response_filename_constant (env : Env) (msg : Json) (p : String)
    (h : (generate_audio_response env msg).1 = .ok p) :
    p = save_audio "audios" "ai_response.mp3" := by
  unfold generate_audio_response at h
  split at h
  · exact absurd h (by simp)
  · split at h
    · exact absurd h (by simp)
    · split at h
      · exact absurd h (by simp)
      · split at h
        · exact absurd h (by simp)
        · split at h
          · exact absurd h (by simp)
          · split at h
            · exact absurd h (by simp)
            · exact (Except.ok.inj h).symm

/-- C2 witness: the amended statement at a concrete successful call. -/
theorem audio_response_filename_constant_witness :
    ("audios/ai_response.mp3" : String) = save_audio "audios" "ai_response.mp3" :=
  audio_response_filename_constant envMurfOk (.jstr "Hello") "audios/ai_response.mp3" rfl

/-! ### Claim C3 -/

/-- C3 counterexample: two distinct uploads are both saved at
`audios/user_audio.mp3`, refuting the claim that any two distinct uploads
are saved under distinct filenames. -/
theorem upload_fixed_filename_cex :
    (upload_audio (some "first recording")).2 = some ("audios/user_audio.mp3", "first recording") ∧
    (upload_audio (some "second recording")).2 = some ("audios/user_audio.mp3", "second recording") ∧
    ("first recording" : String) ≠ "second recording" :=
  ⟨rfl, rfl, by decide⟩

/-- C3 (amended): every successful `POST /upload-audio` answers 200 and
saves the uploaded bytes at the one fixed path `audios/user_audio.mp3`
(`os.path.join('audios', 'user_audio.mp3')`); distinct uploads overwrite
that same file rather than getting unique filenames. -/
theorem upload_filename_constant (c : String) :
    (upload_audio (some c)).1.status = 200 ∧
    (upload_audio (some c)).2 = some (pathJoin "audios" "user_audio.mp3", c) :=
  ⟨rfl, rfl⟩

/-! ### Claim C7 -/

/-- C7: whenever the corresponding client handle is `None`, each wrapper
raises a `RuntimeError` carrying its fixed message and performs no
external call: `generate_ai_response` for the orchestrator,
`transcribe_audio` for speech-to-text, `generate_audio_response` for
text-to-speech. -/
theorem uninitialized_clients_raise (env : Env) :
    (env.orch = none → ∀ message, generate_ai_response env message =
      (.error (.runtimeError "Orchestrator not initialized. Check backend configuration."), [])) ∧
    (env.sst = none → ∀ filepath, transcribe_audio env filepath =
      (.error (.runtimeError "SpeechToText client not initialized. Check backend configuration."), [])) ∧
    (env.murf = none → ∀ ai_message, generate_audio_response env ai_message =
      (.error (.runtimeError "MurfTTSClient not initialized. Check backend configuration."), [])) := by
  refine ⟨fun h msg => ?_, fun h fp => ?_, fun h am => ?_⟩ <;>
    simp [generate_ai_response, transcribe_audio, generate_audio_response, h]

/-- C7 witness: the three wrappers on the environment where every handle
failed to initialize. -/
theorem uninitialized_clients_raise_witness :
    generate_ai_response envNone (.jstr "hello") =
      (.error (.runtimeError "Orchestrator not initialized. Check backend configuration."), []) ∧
    transcribe_audio envNone "a.mp3" =
      (.error (.runtimeError "SpeechToText client not initialized. Check backend configuration."), []) ∧
    generate_audio_response envNone (.jstr "hello") =
      (.error (.runtimeError "MurfTTSClient not initialized. Check backend configuration."), []) :=
  ⟨(uninitialized_clients_raise envNone).1 rfl _,
   (uninitialized_clients_raise envNone).2.1 rfl _,
   (uninitialized_clients_raise envNone).2.2 rfl _⟩

/-! ### Claim C9 -/

/-- C9: `GET /health` always answers 200 with top-level status `healthy`
and the fixed constant timestamp, whatever the three handles are; only the
per-service fields depend on whether each handle is `None`. -/
theorem health_constant_response (env : Env) :
    (health env).status = 200 ∧
    respField (health env) "status" = some (.jstr "healthy") ∧
    respField (health env) "timestamp" = some (.jstr "2025-09-20 09:53:16") ∧
    respServiceField (health env) "orchestrator"
      = some (.jstr (if env.orch.isSome then "available" else "unavailable")) ∧
    respServiceField (health env) "speech_to_text"
      = some (.jstr (if env.sst.isSome then "available" else "unavailable")) ∧
    respServiceField (health env) "text_to_speech"
      = some (.jstr (if env.murf.isSome then "available" else "unavailable")) :=
  ⟨rfl, rfl, rfl, rfl, rfl, rfl⟩

end AppPy

namespace AppPy

/-- A field of the request object, with the default `data.get` supplies. -/
def chatField (kvs : List (String × Json)) (k : String) (dflt : Json) : Json :=
  (lookupKey kvs k).getD dflt

/-- The `user_message` validation test of line 148:
`not user_message or not isinstance(user_message, str) or not user_message.strip()`. -/
def invalidUserMessage (v : Json) : Bool :=
  !v.truthy || !v.isStr || stripEmpty v.strVal

/-- `errorResponse` bodies are JSON error objects. -/
theorem isJsonError_errorResponse (c : Nat) (m : String) :
    isJsonError (errorResponse c m).body = true := rfl

/-- Evaluation of the chat endpoint on any truthy JSON-object body: field
extraction, the `len` logging step, the two validation checks, dispatch. -/
theorem chat_obj_eq (env : Env) (kvs : List (String × Json))
    (h : kvs.isEmpty = false) :
    chat_endpoint env (some (.jobj kvs)) =
      (match pyLen (chatField kvs "messages" (.jarr [])) with
       | .error e => (serverError e, [])
       | .ok _ =>
         if !((chatField kvs "dtype" .jnull).eqStr "audio"
              || (chatField kvs "dtype" .jnull).eqStr "message") then
           (errorResponse 400 "Invalid dtype, must be 'audio' or 'message'", [])
         else if invalidUserMessage (chatField kvs "user_message" .jnull) then
           (errorResponse 400 "Missing or empty user_message", [])
         else if (chatField kvs "dtype" .jnull).eqStr "audio" then
           audioBranch env (chatField kvs "user_message" .jnull).strVal
             (chatField kvs "messages" (.jarr []))
         else
           messageBranch env (chatField kvs "messages" (.jarr []))) := by
  unfold chat_endpoint
  rcases h1 : lookupKey kvs "user_message" with _ | um <;>
    rcases h2 : lookupKey kvs "dtype" with _ | dt <;>
      rcases h3 : lookupKey kvs "messages" with _ | mh <;>
        simp [dictGet, chatField, invalidUserMessage, h1, h2, h3, Json.truthy, h]

/-! ### Claim C4 -/

/-- C4 counterexample: a request whose `dtype` is the invalid string
`"video"` but whose `messages` field is the number 5 is answered 500 (the
logging line evaluates `len(messages_history)`, whose `TypeError` reaches
the outer handler), not the claimed 400. -/
theorem invalid_dtype_len_crash_cex :
    chat_endpoint envNone (some (.jobj [("dtype", .jstr "video"), ("messages", .jnum 5)]))
      = (serverError (.typeError "object of type 'int' has no len()"), []) ∧
    (serverError (.typeError "object of type 'int' has no len()")).status = 500 :=
  ⟨rfl, rfl⟩

/-- C4 (amended): a `POST /chat` body carrying a `dtype` that is neither
`"audio"` nor `"message"` is answered with HTTP 400 and a JSON error body
provided the `len` of its `messages` field (defaulting to `[]`) is
defined; when that `len` raises instead, the endpoint answers HTTP 500
with a JSON error body. In both cases no external service is invoked. -/
theorem invalid_dtype_rejected (env : Env) (kvs : List (String × Json)) (d : Json)
    (hd : lookupKey kvs "dtype" = some d)
    (ha : d.eqStr "audio" = false) (hm : d.eqStr "message" = false) :
    (∀ n, pyLen (chatField kvs "messages" (.jarr [])) = .ok n →
      chat_endpoint env (some (.jobj kvs)) =
        (errorResponse 400 "Invalid dtype, must be 'audio' or 'message'", [])) ∧
    (∀ e, pyLen (chatField kvs "messages" (.jarr [])) = .error e →
      chat_endpoint env (some (.jobj kvs)) = (serverError e, [])) := by
  have hne : kvs.isEmpty = false := by
    cases kvs with
    | nil => simp [lookupKey] at hd
    | cons a l => rfl
  have hdt : chatField kvs "dtype" .jnull = d := by simp [chatField, hd]
  rw [chat_obj_eq env kvs hne]
  constructor
  · intro n hn
    rw [hn]
    simp [hdt, ha, hm]
  · intro e he
    rw [he]

/-- C4 witness: a concrete invalid-`dtype` request (with no `messages`
field, so `len` is defined on the default `[]`) is answered 400 with the
JSON error body, and no external call happens. -/
theorem invalid_dtype_rejected_witness :
    chat_endpoint envNone (some (.jobj [("dtype", .jstr "video")]))
      = (errorResponse 400 "Invalid dtype, must be 'audio' or 'message'", []) :=
  (invalid_dtype_rejected envNone [("dtype", .jstr "video")] (.jstr "video")
    rfl rfl rfl).1 0 rfl

/-! ### Claim C5 -/

/-- C5 counterexample: a request whose `user_message` field is absent but
whose `messages` field is JSON `null` is answered 500 (the logging line
evaluates `len(messages_history)`, whose `TypeError` reaches the outer
handler), not the claimed 400. -/
theorem missing_user_message_len_crash_cex :
    chat_endpoint envNone (some (.jobj [("messages", .jnull)]))
      = (serverError (.typeError "object of type 'NoneType' has no len()"), []) ∧
    (serverError (.typeError "object of type 'NoneType' has no len()")).status = 500 :=
  ⟨rfl, rfl⟩

/-- C5 (amended): a `POST /chat` request with a missing (or falsy) JSON
body, or whose `user_message` field is absent, not a string, falsy, or
all-whitespace, is answered with HTTP 400 and a JSON error body and
invokes no external service — provided the `len` of the `messages` field
(defaulting to `[]`) is defined; when that `len` raises instead, the
endpoint answers HTTP 500, still invoking no external service. -/
theorem invalid_user_message_rejected (env : Env) (kvs : List (String × Json)) (n : Nat)
    (hm : pyLen (chatField kvs "messages" (.jarr [])) = .ok n)
    (hu : invalidUserMessage (chatField kvs "user_message" .jnull) = true) :
    chat_endpoint env none = (errorResponse 400 "Missing JSON body", []) ∧
    ((chat_endpoint env (some (.jobj kvs))).1.status = 400 ∧
     isJsonError (chat_endpoint env (some (.jobj kvs))).1.body = true ∧
     (chat_endpoint env (some (.jobj kvs))).2 = []) := by
  refine ⟨rfl, ?_⟩
  cases he : kvs.isEmpty with
  | true =>
    have : kvs = [] := by cases kvs <;> simp_all
    subst this
    exact ⟨rfl, rfl, rfl⟩
  | false =>
    rw [chat_obj_eq env kvs he, hm]
    cases hg : ((chatField kvs "dtype" .jnull).eqStr "audio"
        || (chatField kvs "dtype" .jnull).eqStr "message") with
    | false => simp only [hg]; exact ⟨rfl, rfl, rfl⟩
    | true => simp only [hg, hu]; exact ⟨rfl, rfl, rfl⟩

/-- C5 witness: a concrete request with valid `dtype` but no
`user_message` is answered 400 with a JSON error body and no external
call. -/
theorem invalid_user_message_rejected_witness :
    chat_endpoint envNone none = (errorResponse 400 "Missing JSON body", []) ∧
    ((chat_endpoint envNone (some (.jobj [("dtype", .jstr "message")]))).1.status = 400 ∧
     isJsonError (chat_endpoint envNone (some (.jobj [("dtype", .jstr "message")]))).1.body = true ∧
     (chat_endpoint envNone (some (.jobj [("dtype", .jstr "message")]))).2 = []) :=
  invalid_user_message_rejected envNone [("dtype", .jstr "message")] 0 rfl rfl

/-! ### Claim C10 -/

/-- C10: a GET request to a path matched by no route (none of the fixed
routes, not an `/audios/<filename>` path, and no static file of that name)
is answered by the 404 handler with the contents of `index.html`, a file
response rather than a JSON error body. -/
theorem unmatched_get_serves_index (env : Env) (p : String)
    (h1 : (p == "/") = false) (h2 : (p == "/health") = false)
    (h3 : isAudiosPath p = false)
    (_h4 : (p == "/chat") = false) (_h5 : (p == "/upload-audio") = false)
    (h6 : env.fileExists (strDrop p 1) = false) :
    dispatch_get env p = not_found ∧
    not_found = ⟨200, .fileBody "." "index.html"⟩ ∧
    isJsonError not_found.body = false := by
  refine ⟨?_, rfl, rfl⟩
  unfold dispatch_get
  simp [h1, h2, h3, h6]

/-- C10 witness: the 404 handler at a concrete unrouted path. -/
theorem unmatched_get_serves_index_witness :
    dispatch_get envNone "/no-such-page" = not_found ∧
    not_found = ⟨200, .fileBody "." "index.html"⟩ ∧
    isJsonError not_found.body = false :=
  unmatched_get_serves_index envNone "/no-such-page" rfl rfl rfl rfl rfl rfl

end AppPy

namespace AppPy

/-! ### Claim C1 -/

/-- C1 counterexample: in the `dtype == "message"` branch, an exception
raised by the orchestrator call is answered with HTTP 200 and the fallback
body, not with a 400/500 JSON error body. -/
theorem chat_message_orch_failure_returns200 :
    chat_endpoint envOrchFail (some (mkChatReq "message" "Hello" []))
      = (fallbackResponse, [Event.orchCall []]) ∧
    envOrchFail.orch = some orchFail ∧
    orchFail [] = .error (.serviceError "orchestrator connection failed") ∧
    fallbackResponse.status = 200 ∧
    isJsonError fallbackResponse.body = false :=
  ⟨rfl, rfl, rfl, rfl, rfl⟩

/-- C1 (amended): on a validated audio request every external-call failure
is caught and mapped to an HTTP 400 or 500 with a JSON error body
(`FileNotFoundError` from transcription to 400, everything else to 500);
on a validated message request an orchestrator failure is instead caught
and answered with HTTP 200 and the fallback JSON body. -/
theorem chat_error_translation (env : Env) (s : String) (hist : List Json)
    (hs : stripEmpty s = false) :
    ((∀ e ev₁, transcribe_audio env s = (.error e, ev₁) →
        ((chatAudio env s hist).1.status = 400 ∨ (chatAudio env s hist).1.status = 500) ∧
        isJsonError (chatAudio env s hist).1.body = true) ∧
     (∀ t ev₁ e ev₂, transcribe_audio env s = (.ok t, ev₁) →
        audioStage2 env (.jarr hist) t = (.error e, ev₂) →
        (chatAudio env s hist).1.status = 500 ∧
        isJsonError (chatAudio env s hist).1.body = true) ∧
     (∀ t ev₁ ai ev₂ e ev₃, transcribe_audio env s = (.ok t, ev₁) →
        audioStage2 env (.jarr hist) t = (.ok ai, ev₂) →
        generate_audio_response env ai = (.error e, ev₃) →
        (chatAudio env s hist).1.status = 500 ∧
        isJsonError (chatAudio env s hist).1.body = true)) ∧
    (∀ e ev, messageStage env (.jarr hist) = (.error e, ev) →
        chatMessage env s hist = (fallbackResponse, ev)) := by
  refine ⟨⟨fun e ev₁ h1 => ?_, fun t ev₁ e ev₂ h1 h2 => ?_,
           fun t ev₁ ai ev₂ e ev₃ h1 h2 h3 => ?_⟩, fun e ev h => ?_⟩
  · rw [chat_audio_eq env s hist hs]
    unfold audioBranch
    cases e <;> simp only [h1] <;>
      first
        | exact ⟨Or.inl rfl, rfl⟩
        | exact ⟨Or.inr rfl, rfl⟩
  · rw [chat_audio_eq env s hist hs]
    unfold audioBranch
    simp only [h1, h2]
    exact ⟨rfl, rfl⟩
  · rw [chat_audio_eq env s hist hs]
    unfold audioBranch
    simp only [h1, h2, h3]
    exact ⟨rfl, rfl⟩
  · rw [chat_message_eq env s hist hs]
    unfold messageBranch
    simp only [h]

/-- C1 witness: the amended statement at a concrete audio request whose
transcription call raises. -/
theorem chat_error_translation_witness :
    ((chatAudio envSttFail "a.mp3" []).1.status = 400 ∨
     (chatAudio envSttFail "a.mp3" []).1.status = 500) ∧
    isJsonError (chatAudio envSttFail "a.mp3" []).1.body = true :=
  (chat_error_translation envSttFail "a.mp3" [] rfl).1.1
    (.serviceError "transcription service down") [.sttCall "a.mp3"] rfl

/-! ### Claim C6 -/

/-- C6: on a validated audio request the pipeline stages run in the fixed
order transcribe, orchestrator, speech synthesis, respond: the performed
external calls are the speech-to-text ones, then the orchestrator ones,
then the text-to-speech ones, and the first stage that raises ends the
request with no later stage invoked (its calls are absent from the
trace). -/
theorem audio_pipeline_order (env : Env) (s : String) (hist : List Json)
    (hs : stripEmpty s = false) :
    (∀ e ev₁, transcribe_audio env s = (.error e, ev₁) →
       (chatAudio env s hist).2 = ev₁ ∧ ev₁.all Event.isStt = true) ∧
    (∀ t ev₁ e ev₂, transcribe_audio env s = (.ok t, ev₁) →
       audioStage2 env (.jarr hist) t = (.error e, ev₂) →
       (chatAudio env s hist).2 = ev₁ ++ ev₂ ∧
       ev₁.all Event.isStt = true ∧ ev₂.all Event.isOrch = true) ∧
    (∀ t ev₁ ai ev₂ e ev₃, transcribe_audio env s = (.ok t, ev₁) →
       audioStage2 env (.jarr hist) t = (.ok ai, ev₂) →
       generate_audio_response env ai = (.error e, ev₃) →
       (chatAudio env s hist).2 = ev₁ ++ ev₂ ++ ev₃ ∧
       (chatAudio env s hist).1.status = 500 ∧
       ev₁.all Event.isStt = true ∧ ev₂.all Event.isOrch = true ∧
       ev₃.all Event.isTts = true) ∧
    (∀ t ev₁ ai ev₂ fp ev₃, transcribe_audio env s = (.ok t, ev₁) →
       audioStage2 env (.jarr hist) t = (.ok ai, ev₂) →
       generate_audio_response env ai = (.ok fp, ev₃) →
       (chatAudio env s hist).2 = ev₁ ++ ev₂ ++ ev₃ ∧
       (chatAudio env s hist).1.status = 200 ∧
       ev₁.all Event.isStt = true ∧ ev₂.all Event.isOrch = true ∧
       ev₃.all Event.isTts = true) := by
  have k1 := transcribe_events env s
  have k2 := audioStage2_events env (.jarr hist)
  have k3 := genaudio_events env
  refine ⟨fun e ev₁ h1 => ?_, fun t ev₁ e ev₂ h1 h2 => ?_,
          fun t ev₁ ai ev₂ e ev₃ h1 h2 h3 => ?_,
          fun t ev₁ ai ev₂ fp ev₃ h1 h2 h3 => ?_⟩
  · rw [h1] at k1
    refine ⟨?_, k1⟩
    rw [chat_audio_eq env s hist hs]
    unfold audioBranch
    cases e <;> simp only [h1]
  · rw [h1] at k1; have k2t := k2 t; rw [h2] at k2t
    refine ⟨?_, k1, k2t⟩
    rw [chat_audio_eq env s hist hs]
    unfold audioBranch
    simp only [h1, h2]
  · rw [h1] at k1; have k2t := k2 t; rw [h2] at k2t
    have k3a := k3 ai; rw [h3] at k3a
    refine ⟨?_, ?_, k1, k2t, k3a⟩ <;>
      (rw [chat_audio_eq env s hist hs]; unfold audioBranch; simp only [h1, h2, h3]; try rfl)
  · rw [h1] at k1; have k2t := k2 t; rw [h2] at k2t
    have k3a := k3 ai; rw [h3] at k3a
    refine ⟨?_, ?_, k1, k2t, k3a⟩ <;>
      (rw [chat_audio_eq env s hist hs]; unfold audioBranch; simp only [h1, h2, h3]; try rfl)

/-- C6 witness: the pipeline at a concrete request whose transcription
call raises: the trace holds the speech-to-text call only. -/
theorem audio_pipeline_order_witness :
    (chatAudio envSttFail "b.mp3" []).2 = [Event.sttCall "b.mp3"] ∧
    ([Event.sttCall "b.mp3"]).all Event.isStt = true :=
  (audio_pipeline_order envSttFail "b.mp3" [] rfl).1
    (.serviceError "transcription service down") [.sttCall "b.mp3"] rfl

end AppPy

namespace AppPy

/-! ### Claim C8 -/

/-- C8: on a validated message request the conversation forwarded to the
orchestrator is exactly the `content` fields of the client-supplied
history, in order — the validated `user_message` is never appended (the
trace is the same whatever `s` is); on a validated audio request the
orchestrator instead receives the history contents with the transcribed
text appended after them. -/
theorem conversation_contents_forwarded (env : Env)
    (f : List Json → Except Exn Json) (s : String) (hist cs : List Json)
    (hs : stripEmpty s = false) (ho : env.orch = some f)
    (hc : conversationOf (.jarr hist) = .ok cs) :
    (chatMessage env s hist).2 = [Event.orchCall cs] ∧
    (∀ t ev₁, transcribe_audio env s = (.ok t, ev₁) →
       ∃ rest, (chatAudio env s hist).2
         = ev₁ ++ Event.orchCall (cs ++ [Json.jstr t]) :: rest) := by
  constructor
  · rw [chat_message_eq env s hist hs]
    unfold messageBranch messageStage
    have ht := genai_trace env f ho cs
    rcases hg : generate_ai_response env (.jarr cs) with ⟨r, ev⟩
    rw [hg] at ht
    cases r <;> simp only [hc, hg] <;> exact ht
  · intro t ev₁ h1
    rw [chat_audio_eq env s hist hs]
    unfold audioBranch
    have ht : (audioStage2 env (.jarr hist) t).2
        = [Event.orchCall (cs ++ [Json.jstr t])] := by
      unfold audioStage2
      rw [hc]
      exact genai_trace env f ho _
    rcases hg : audioStage2 env (.jarr hist) t with ⟨r, ev₂⟩
    rw [hg] at ht
    have ht2 : ev₂ = [Event.orchCall (cs ++ [Json.jstr t])] := ht
    cases r with
    | error e =>
      refine ⟨[], ?_⟩
      simp only [h1, hg, ht2]
    | ok ai =>
      rcases h3 : generate_audio_response env ai with ⟨r3, ev₃⟩
      cases r3 with
      | error e =>
        refine ⟨ev₃, ?_⟩
        simp only [h1, hg, h3, ht2, List.append_assoc, List.singleton_append]
      | ok fp =>
        refine ⟨ev₃, ?_⟩
        simp only [h1, hg, h3, ht2, List.append_assoc, List.singleton_append]

/-- C8 witness: a concrete environment where the orchestrator and
speech-to-text succeed; the message branch forwards exactly the one
history content, and the audio branch forwards it with the transcribed
text appended. -/
theorem conversation_contents_forwarded_witness :
    (chatMessage envOrchSttOk "a.mp3" histOne).2
      = [Event.orchCall [Json.jstr "earlier turn"]] ∧
    (∃ rest, (chatAudio envOrchSttOk "a.mp3" histOne).2
      = [Event.sttCall "a.mp3"]
        ++ Event.orchCall [Json.jstr "earlier turn", Json.jstr "transcribed words"] :: rest) := by
  have h := conversation_contents_forwarded envOrchSttOk orchOk "a.mp3" histOne
    [Json.jstr "earlier turn"] rfl rfl rfl
  exact ⟨h.1, h.2 "transcribed words" [Event.sttCall "a.mp3"] rfl⟩

end AppPy
